import Mathlib

/-!
Verification of the EcoSense consumption-analysis core.

The analysis pipeline (src/utils.py, src/analysis/electricity_analysis.py,
src/analysis/water_analysis.py, src/config.py) is shallowly embedded here.
Numeric columns are modelled as exact rationals (`ℚ`); the IEEE special
values that pandas produces on degenerate inputs (NaN from `0/0`, infinities
from `x/0`) are modelled explicitly by the `Sev` type rather than silently
collapsing to `0` as rational division would.  A table is a `List` of
records in row order; the pandas column operations used by the source
(`quantile`, `mean`, `std`, boolean masks, `groupby`, `sort_values`) are
translated operation by operation below.
-/

/-- Column mean, `Series.mean()`: the arithmetic mean of a column.  For the empty column
pandas returns NaN; every use below is guarded by a non-emptiness check,
exactly as in the source. -/
def mean (l : List ℚ) : ℚ := l.sum / (l.length : ℚ)

/-- Sample variance, `Series.std()` squared, with `ddof = 1`, pandas'
default.  Only meaningful for columns of length ≥ 2 (pandas yields NaN on
shorter ones); `anomalySeverity` below guards that case explicitly. -/
def sampleVar (l : List ℚ) : ℚ :=
  ((l.map (fun x => (x - mean l) ^ 2)).sum) / ((l.length : ℚ) - 1)

/-- Linear-interpolation percentile, `Series.quantile(q)` with pandas'
default interpolation: with the
column sorted ascending as `x₀ ≤ … ≤ xₙ₋₁` and `h = (n-1)·q`, the result is
`x⌊h⌋ + (h - ⌊h⌋)·(x⌊h⌋₊₁ - x⌊h⌋)`.  (pandas' unstable quicksort is modelled
by insertion sort; only the sorted value sequence matters here.) -/
def quantileLinear (values : List ℚ) (q : ℚ) : ℚ :=
  let sorted := List.insertionSort (· ≤ ·) values
  let h : ℚ := ((values.length : ℚ) - 1) * q
  let i : ℕ := (⌊h⌋).toNat
  let lo := sorted.getD i 0
  let hi := sorted.getD (i + 1) lo
  lo + (h - (i : ℚ)) * (hi - lo)

/-- Round-half-even of a rational to an integer: the rounding Python's
builtin `round` applies to the value held by a float. -/
def rhe (x : ℚ) : ℤ :=
  if x - ⌊x⌋ < 1 / 2 then ⌊x⌋
  else if 1 / 2 < x - ⌊x⌋ then ⌊x⌋ + 1
  else if 2 ∣ ⌊x⌋ then ⌊x⌋ else ⌊x⌋ + 1

/-- Python's `round(x, 2)`, used by the analyzers on every reported figure:
round-half-even to two decimal places. -/
def round2 (x : ℚ) : ℚ := (rhe (100 * x) : ℚ) / 100

/-- The value of the `anomaly_severity` column for one record, as the float
expression `(value - mean) / std` actually evaluates in pandas:

* `nan'` models IEEE NaN: `std` is itself NaN (column shorter than 2), or
  the division is `0/0` (`value = mean` with `std = 0`);
* `posInf` / `negInf` model `±∞` from `(value - mean)/0` with a non-zero
  numerator;
* `finite num var` denotes the ordinary z-score `num / √var` (`var > 0`),
  kept as the pair (numerator, variance) because the square root of a
  rational need not be rational. -/
inductive Sev where
  | nan' : Sev
  | posInf : Sev
  | negInf : Sev
  | finite (num : ℚ) (var : ℚ) : Sev
  deriving DecidableEq, Repr

/-- Value of `(data[column] - data[column].mean()) / data[column].std()` for
one cell, with the IEEE special cases spelt out (see `Sev`). -/
def anomalySeverity (values : List ℚ) (v : ℚ) : Sev :=
  let m := mean values
  if values.length < 2 then Sev.nan'
  else if sampleVar values = 0 then
    if v = m then Sev.nan'
    else if m < v then Sev.posInf
    else Sev.negInf
  else Sev.finite (v - m) (sampleVar values)

/-- One row of the input table after the record normalizer: facility name,
hour of day (what `pd.to_datetime(data.date).dt.hour` extracts), and the
numeric consumption value of the resource column. -/
structure RawRecord where
  facility : String
  hour : ℕ
  value : ℚ
  deriving DecidableEq, Repr

/-- A row after `detect_anomalies` has attached the `is_anomaly` and
`anomaly_severity` columns. -/
structure ARecord where
  facility : String
  hour : ℕ
  value : ℚ
  is_anomaly : Bool
  anomaly_severity : Sev
  deriving DecidableEq, Repr

/-- A row after `identify_night_time_usage` has also attached the
`is_night_time` column: the fully-flagged record consumed by the trend,
aggregation and issue-detection passes. -/
structure FRecord where
  facility : String
  hour : ℕ
  value : ℚ
  is_anomaly : Bool
  anomaly_severity : Sev
  is_night_time : Bool
  deriving DecidableEq, Repr

/-- Embedding of `utils.detect_anomalies(data, column, threshold_percentile)`:
`threshold = data[column].quantile(threshold_percentile / 100)`,
`is_anomaly = data[column] > threshold` (strict), and the z-score column;
returns the flagged table together with the threshold. -/
def detect_anomalies (data : List RawRecord) (threshold_percentile : ℚ) :
    List ARecord × ℚ :=
  let values := data.map RawRecord.value
  let threshold := quantileLinear values (threshold_percentile / 100)
  (data.map (fun r =>
      { facility := r.facility
        hour := r.hour
        value := r.value
        is_anomaly := decide (threshold < r.value)
        anomaly_severity := anomalySeverity values r.value }),
   threshold)

/-- The night window `config.NIGHT_TIME_HOURS = [22, 23, 0, 1, 2, 3, 4, 5]`
(10 PM – 5 AM). -/
def NIGHT_TIME_HOURS : List ℕ := [22, 23, 0, 1, 2, 3, 4, 5]

/-- Embedding of `utils.identify_night_time_usage(data)`:
`is_night_time = data['hour'].isin(NIGHT_TIME_HOURS)`. -/
def identify_night_time_usage (data : List ARecord) : List FRecord :=
  data.map (fun r =>
    { facility := r.facility
      hour := r.hour
      value := r.value
      is_anomaly := r.is_anomaly
      anomaly_severity := r.anomaly_severity
      is_night_time := decide (r.hour ∈ NIGHT_TIME_HOURS) })

/-- Embedding of `utils.get_trend_direction(series)`: compare the means of the two
halves split at index `len(series)//2`; `diff_percent` is forced to `0`
when the first-half mean is `0`. -/
def get_trend_direction (series : List ℚ) : String :=
  if series.length < 2 then "insufficient_data"
  else
    let first_half := mean (series.take (series.length / 2))
    let second_half := mean (series.drop (series.length / 2))
    let diff_percent :=
      if first_half ≠ 0 then (second_half - first_half) / first_half * 100 else 0
    if 5 < diff_percent then "increasing"
    else if diff_percent < -5 then "decreasing"
    else "stable"

/-- Column deduplication, `DataFrame.unique()`: the distinct entries in order of first
appearance. -/
def pandasUnique : List String → List String
  | [] => []
  | x :: xs => x :: pandasUnique (xs.filter (fun y => decide (y ≠ x)))
  termination_by l => l.length
  decreasing_by
    simp only [List.length_cons]
    exact Nat.lt_succ_of_le (List.length_filter_le _ _)

/-- The (unrounded) sum of the value column over the rows of one facility. -/
def facilitySum (data : List FRecord) (f : String) : ℚ :=
  ((data.filter (fun r => decide (r.facility = f))).map FRecord.value).sum

/-- One entry of the per-facility rollup: `{'total_…': …, 'avg_…': …,
'anomalies': …}` (the `_kwh` / `_gallons` suffix of the two numeric keys is
the only difference between the electricity and water versions). -/
structure FacilityRollup where
  total : ℚ
  avg : ℚ
  anomalies : ℕ
  deriving DecidableEq, Repr

/-- Embedding of `_facility_wise_analysis` (line-identical in both analyzer classes up
to column names): for each facility appearing in the table, the rounded
total, rounded mean and anomaly count of its rows. -/
def facility_wise_analysis (data : List FRecord) : List (String × FacilityRollup) :=
  (pandasUnique (data.map FRecord.facility)).map (fun f =>
    let fd := data.filter (fun r => decide (r.facility = f))
    (f, { total := round2 ((fd.map FRecord.value).sum)
          avg := round2 (mean (fd.map FRecord.value))
          anomalies := (fd.filter FRecord.is_anomaly).length }))

/-- The `night_idle` report of `ElectricityAnalyzer._detect_night_idle`.
`night_consumption_percentage` is `none` when the total consumption is `0`:
the float division then yields NaN/∞, no finite number. -/
structure NightIdleReport where
  high_night_consumption_count : ℕ
  night_consumption_percentage : Option ℚ
  issue_severity : String
  deriving DecidableEq, Repr

/-- Embedding of `ElectricityAnalyzer._detect_night_idle`: night-time rows whose value
strictly exceeds the anomaly threshold, with the fixed severity breakpoints
`> 10 → HIGH`, `> 5 → MEDIUM`, else `LOW`. -/
def detect_night_idle (data : List FRecord) (threshold : ℚ) : NightIdleReport :=
  let night_data := data.filter FRecord.is_night_time
  let high_night_usage := night_data.filter (fun r => decide (threshold < r.value))
  { high_night_consumption_count := high_night_usage.length
    night_consumption_percentage :=
      if (data.map FRecord.value).sum = 0 then none
      else some (round2 ((night_data.map FRecord.value).sum / (data.map FRecord.value).sum * 100))
    issue_severity :=
      if 10 < high_night_usage.length then "HIGH"
      else if 5 < high_night_usage.length then "MEDIUM"
      else "LOW" }

/-- The `potential_leaks` report of `WaterAnalyzer._detect_potential_leaks`.
(pandas' `groupby` sorts the group keys; only membership in the at-risk
list is specified, so first-appearance order stands in for it here.) -/
structure LeakReport where
  high_anomaly_count : ℕ
  facilities_at_risk : List String
  leak_probability : String
  recommended_inspection : List String
  deriving DecidableEq, Repr

/-- Embedding of `WaterAnalyzer._detect_potential_leaks`: anomalous rows grouped per
facility; a facility with strictly more than 5 anomalous rows is at risk,
and `leak_probability` is `HIGH` exactly when some facility is. -/
def detect_potential_leaks (data : List FRecord) : LeakReport :=
  let anomaly_data := data.filter FRecord.is_anomaly
  let leak_risk_facilities :=
    (pandasUnique (anomaly_data.map FRecord.facility)).filter
      (fun f => decide (5 < (anomaly_data.filter (fun r => decide (r.facility = f))).length))
  { high_anomaly_count := anomaly_data.length
    facilities_at_risk := leak_risk_facilities
    leak_probability := if 0 < leak_risk_facilities.length then "HIGH" else "LOW"
    recommended_inspection := leak_risk_facilities }

/-- Column maximum, `Series.max()`, of a non-empty column (the empty case, NaN in pandas, is
guarded by the emptiness check in `analyze` and defaulted to `0` here). -/
def seriesMax : List ℚ → ℚ
  | [] => 0
  | x :: xs => xs.foldl max x

/-- The `{"error": reason}` object `analyze` returns instead of raising. -/
structure ErrorObj where
  error : String
  deriving DecidableEq, Repr

/-- The result dictionary of `ElectricityAnalyzer.analyze`. -/
structure ElectricityResult where
  total_consumption_kwh : ℚ
  average_consumption_kwh : ℚ
  peak_consumption_kwh : ℚ
  night_consumption_kwh : ℚ
  anomalies_detected : ℕ
  anomaly_threshold : ℚ
  consumption_trend : String
  facility_analysis : List (String × FacilityRollup)
  night_idle_issues : NightIdleReport
  anomaly_percentage : ℚ
  deriving DecidableEq, Repr

/-- The result dictionary of `WaterAnalyzer.analyze`. -/
structure WaterResult where
  total_consumption_gallons : ℚ
  average_consumption_gallons : ℚ
  peak_consumption_gallons : ℚ
  night_consumption_gallons : ℚ
  anomalies_detected : ℕ
  anomaly_threshold : ℚ
  consumption_trend : String
  facility_analysis : List (String × FacilityRollup)
  potential_leaks : LeakReport
  anomaly_percentage : ℚ
  deriving DecidableEq, Repr

/-- Embedding of `ElectricityAnalyzer.analyze(self)` on an already-loaded table with the
analyzer's `threshold_percentile`: the `{"error": "No data available"}`
object on an empty table, otherwise the full result dictionary computed
from the flagged table. -/
def ElectricityAnalyzer.analyze (data : List RawRecord) (threshold_percentile : ℚ) :
    Except ErrorObj ElectricityResult :=
  if data.length = 0 then Except.error ⟨"No data available"⟩
  else
    let flagged := detect_anomalies data threshold_percentile
    let fdata := identify_night_time_usage flagged.1
    let values := fdata.map FRecord.value
    Except.ok
      { total_consumption_kwh := round2 values.sum
        average_consumption_kwh := round2 (mean values)
        peak_consumption_kwh := round2 (seriesMax values)
        night_consumption_kwh :=
          round2 (((fdata.filter FRecord.is_night_time).map FRecord.value).sum)
        anomalies_detected := (fdata.filter FRecord.is_anomaly).length
        anomaly_threshold := round2 flagged.2
        consumption_trend := get_trend_direction values
        facility_analysis := facility_wise_analysis fdata
        night_idle_issues := detect_night_idle fdata flagged.2
        anomaly_percentage :=
          round2 (((fdata.filter FRecord.is_anomaly).length : ℚ) / (data.length : ℚ) * 100) }

/-- Embedding of `WaterAnalyzer.analyze(self)`: identical to the electricity variant up
to column names and the resource-specific issue detector. -/
def WaterAnalyzer.analyze (data : List RawRecord) (threshold_percentile : ℚ) :
    Except ErrorObj WaterResult :=
  if data.length = 0 then Except.error ⟨"No data available"⟩
  else
    let flagged := detect_anomalies data threshold_percentile
    let fdata := identify_night_time_usage flagged.1
    let values := fdata.map FRecord.value
    Except.ok
      { total_consumption_gallons := round2 values.sum
        average_consumption_gallons := round2 (mean values)
        peak_consumption_gallons := round2 (seriesMax values)
        night_consumption_gallons :=
          round2 (((fdata.filter FRecord.is_night_time).map FRecord.value).sum)
        anomalies_detected := (fdata.filter FRecord.is_anomaly).length
        anomaly_threshold := round2 flagged.2
        consumption_trend := get_trend_direction values
        facility_analysis := facility_wise_analysis fdata
        potential_leaks := detect_potential_leaks fdata
        anomaly_percentage :=
          round2 (((fdata.filter FRecord.is_anomaly).length : ℚ) / (data.length : ℚ) * 100) }

/-- Descending order on the value column: the sort key of
`sort_values(column, ascending=False)`. -/
def byValueDesc (a b : FRecord) : Prop := b.value ≤ a.value

instance : DecidableRel byValueDesc :=
  fun a b => inferInstanceAs (Decidable (b.value ≤ a.value))

instance : IsTotal FRecord byValueDesc :=
  ⟨fun a b => le_total b.value a.value⟩

instance : IsTrans FRecord byValueDesc :=
  ⟨fun _ _ _ h1 h2 => le_trans h2 h1⟩

/-- Embedding of `ElectricityAnalyzer.get_anomalies_dataframe`: the anomalous rows
sorted by consumption descending (pandas' unstable quicksort is modelled
by insertion sort; the claim constrains only the multiset and the order of
the values). -/
def ElectricityAnalyzer.get_anomalies_dataframe (data : List FRecord) : List FRecord :=
  List.insertionSort byValueDesc (data.filter FRecord.is_anomaly)

/-- Embedding of `WaterAnalyzer.get_anomalies_dataframe`: same as the electricity
variant up to the column name. -/
def WaterAnalyzer.get_anomalies_dataframe (data : List FRecord) : List FRecord :=
  List.insertionSort byValueDesc (data.filter FRecord.is_anomaly)

/-! ### General lemmas about the embedded primitives -/

theorem rhe_cases (x : ℚ) : rhe x = ⌊x⌋ ∨ rhe x = ⌊x⌋ + 1 := by
  unfold rhe
  split_ifs <;> simp

theorem floor_le_rhe (x : ℚ) : ⌊x⌋ ≤ rhe x := by
  rcases rhe_cases x with h | h <;> omega

theorem rhe_le_floor_add_one (x : ℚ) : rhe x ≤ ⌊x⌋ + 1 := by
  rcases rhe_cases x with h | h <;> omega

theorem rhe_mono {x y : ℚ} (h : x ≤ y) : rhe x ≤ rhe y := by
  rcases lt_or_eq_of_le (Int.floor_le_floor h) with hf | hf
  · calc rhe x ≤ ⌊x⌋ + 1 := rhe_le_floor_add_one x
      _ ≤ ⌊y⌋ := by omega
      _ ≤ rhe y := floor_le_rhe y
  · have hx : (⌊x⌋ : ℚ) = (⌊y⌋ : ℚ) := by exact_mod_cast hf
    unfold rhe
    rw [← hf]
    split_ifs <;> first | omega | linarith

theorem round2_mono {x y : ℚ} (h : x ≤ y) : round2 x ≤ round2 y := by
  unfold round2
  have h1 : rhe (100 * x) ≤ rhe (100 * y) := rhe_mono (by linarith)
  have h2 : ((rhe (100 * x) : ℤ) : ℚ) ≤ ((rhe (100 * y) : ℤ) : ℚ) := by exact_mod_cast h1
  linarith

theorem round2_zero : round2 0 = 0 := by
  norm_num [round2, rhe]

theorem round2_hundred : round2 100 = 100 := by
  norm_num [round2, rhe]

theorem mem_pandasUnique (l : List String) (a : String) :
    a ∈ pandasUnique l ↔ a ∈ l := by
  induction l using pandasUnique.induct with
  | case1 => simp [pandasUnique]
  | case2 x xs ih =>
    rw [pandasUnique]
    simp only [List.mem_cons, ih, List.mem_filter, decide_eq_true_eq]
    by_cases hax : a = x <;> tauto

theorem pandasUnique_nodup (l : List String) : (pandasUnique l).Nodup := by
  induction l using pandasUnique.induct with
  | case1 => simp [pandasUnique]
  | case2 x xs ih =>
    rw [pandasUnique]
    refine List.nodup_cons.mpr ⟨?_, ih⟩
    intro hmem
    have h1 := (mem_pandasUnique _ _).mp hmem
    simp [List.mem_filter] at h1

theorem sum_map_ite_eq (keys : List String) (a : String) (v : ℚ)
    (hnd : keys.Nodup) (ha : a ∈ keys) :
    (keys.map (fun f => if a = f then v else 0)).sum = v := by
  induction keys with
  | nil => cases ha
  | cons k ks ih =>
    rcases List.mem_cons.mp ha with rfl | hmem
    · have hk : a ∉ ks := (List.nodup_cons.mp hnd).1
      simp only [List.map_cons, List.sum_cons, if_pos rfl]
      have hz : (ks.map (fun f => if a = f then v else 0)).sum = 0 := by
        apply List.sum_eq_zero
        intro x hx
        rcases List.mem_map.mp hx with ⟨f, hf, rfl⟩
        have : a ≠ f := fun hh => hk (hh ▸ hf)
        simp [this]
      rw [hz]; simp
    · have hne : a ≠ k := fun hh => (List.nodup_cons.mp hnd).1 (hh ▸ hmem)
      simp only [List.map_cons, List.sum_cons, if_neg hne]
      rw [ih (List.nodup_cons.mp hnd).2 hmem]; ring

theorem facilitySum_cons (r : FRecord) (l : List FRecord) :
    facilitySum (r :: l) =
      fun f => (if r.facility = f then r.value else 0) + facilitySum l f := by
  funext f
  unfold facilitySum
  rw [List.filter_cons]
  by_cases h : r.facility = f
  · simp [h]
  · simp [h]

theorem sum_map_add_fun (g h : String → ℚ) (keys : List String) :
    (keys.map (fun f => g f + h f)).sum = (keys.map g).sum + (keys.map h).sum := by
  induction keys with
  | nil => simp
  | cons k ks ih => simp only [List.map_cons, List.sum_cons, ih]; ring

theorem sum_facilitySum (data : List FRecord) (keys : List String)
    (hnd : keys.Nodup) (hcov : ∀ r ∈ data, r.facility ∈ keys) :
    (keys.map (facilitySum data)).sum = (data.map FRecord.value).sum := by
  induction data with
  | nil =>
    simp only [List.map_nil, List.sum_nil]
    apply List.sum_eq_zero
    intro x hx
    rcases List.mem_map.mp hx with ⟨f, _, rfl⟩
    simp [facilitySum]
  | cons r l ih =>
    have h1 : ∀ x ∈ l, x.facility ∈ keys := fun x hx => hcov x (List.mem_cons_of_mem _ hx)
    rw [facilitySum_cons, sum_map_add_fun,
      sum_map_ite_eq keys r.facility r.value hnd (hcov r (List.mem_cons_self r l)),
      ih h1]
    simp

theorem sum_map_value_filter_le (p : FRecord → Bool) (l : List FRecord)
    (h : ∀ r ∈ l, 0 ≤ r.value) :
    ((l.filter p).map FRecord.value).sum ≤ (l.map FRecord.value).sum := by
  induction l with
  | nil => simp
  | cons r t ih =>
    have h0 := h r (List.mem_cons_self r t)
    have ht : ∀ x ∈ t, 0 ≤ x.value := fun x hx => h x (List.mem_cons_of_mem _ hx)
    rw [List.filter_cons]
    by_cases hp : p r
    · simp only [if_pos hp, List.map_cons, List.sum_cons]
      linarith [ih ht]
    · simp only [if_neg hp, List.map_cons, List.sum_cons]
      linarith [ih ht]

theorem pipeline_values (data : List RawRecord) (p : ℚ) :
    (identify_night_time_usage (detect_anomalies data p).1).map FRecord.value
      = data.map RawRecord.value := by
  simp [identify_night_time_usage, detect_anomalies, List.map_map, Function.comp]

theorem pipeline_length (data : List RawRecord) (p : ℚ) :
    (identify_night_time_usage (detect_anomalies data p).1).length = data.length := by
  simp [identify_night_time_usage, detect_anomalies]

theorem pipeline_value_nonneg (data : List RawRecord) (p : ℚ)
    (h : ∀ r ∈ data, 0 ≤ r.value) :
    ∀ r ∈ identify_night_time_usage (detect_anomalies data p).1, 0 ≤ r.value := by
  intro r hr
  simp only [identify_night_time_usage, detect_anomalies, List.map_map,
    List.mem_map, Function.comp] at hr
  rcases hr with ⟨s, hs, rfl⟩
  exact h s hs

/-! ### The claims -/

/-- Claim C1: for every non-empty value series with positive sample variance
(`stddev > 0`) and every percentile `p ∈ [0,100]`, `detect_anomalies` takes
the linear-interpolation percentile of the series as its threshold and flags
a record as anomalous exactly when its value is strictly greater than that
threshold; a value equal to the threshold is never flagged. -/
theorem detect_anomalies_strict_threshold (data : List RawRecord) (p : ℚ)
    (hne : data ≠ []) (hvar : 0 < sampleVar (data.map RawRecord.value))
    (hp0 : 0 ≤ p) (hp1 : p ≤ 100) :
    (detect_anomalies data p).2 = quantileLinear (data.map RawRecord.value) (p / 100)
    ∧ (∀ r ∈ (detect_anomalies data p).1,
        (r.is_anomaly = true ↔ (detect_anomalies data p).2 < r.value))
    ∧ (∀ r ∈ (detect_anomalies data p).1,
        r.value = (detect_anomalies data p).2 → r.is_anomaly = false) := by
  refine ⟨rfl, ?_, ?_⟩
  · intro r hr
    simp only [detect_anomalies, List.mem_map] at hr
    rcases hr with ⟨s, hs, rfl⟩
    simp [detect_anomalies]
  · intro r hr hveq
    simp only [detect_anomalies, List.mem_map] at hr
    rcases hr with ⟨s, hs, rfl⟩
    simp only [detect_anomalies] at hveq ⊢
    simp [hveq]

/-- Instantiation of `detect_anomalies_strict_threshold` on the two-row
series `[1, 2]` at the default percentile 75. -/
theorem detect_anomalies_strict_threshold_witness :
    (([⟨"A", 0, 1⟩, ⟨"A", 0, 2⟩] : List RawRecord) ≠ [])
    ∧ 0 < sampleVar (([⟨"A", 0, 1⟩, ⟨"A", 0, 2⟩] : List RawRecord).map RawRecord.value)
    ∧ ((0 : ℚ) ≤ 75) ∧ ((75 : ℚ) ≤ 100)
    ∧ ((detect_anomalies [⟨"A", 0, 1⟩, ⟨"A", 0, 2⟩] 75).2
        = quantileLinear (([⟨"A", 0, 1⟩, ⟨"A", 0, 2⟩] : List RawRecord).map RawRecord.value)
            (75 / 100)
      ∧ (∀ r ∈ (detect_anomalies [⟨"A", 0, 1⟩, ⟨"A", 0, 2⟩] 75).1,
          (r.is_anomaly = true ↔ (detect_anomalies [⟨"A", 0, 1⟩, ⟨"A", 0, 2⟩] 75).2 < r.value))
      ∧ (∀ r ∈ (detect_anomalies [⟨"A", 0, 1⟩, ⟨"A", 0, 2⟩] 75).1,
          r.value = (detect_anomalies [⟨"A", 0, 1⟩, ⟨"A", 0, 2⟩] 75).2 →
            r.is_anomaly = false)) := by
  have h1 : (([⟨"A", 0, 1⟩, ⟨"A", 0, 2⟩] : List RawRecord) ≠ []) := by simp
  have h2 : 0 < sampleVar (([⟨"A", 0, 1⟩, ⟨"A", 0, 2⟩] : List RawRecord).map RawRecord.value) := by
    norm_num [sampleVar, mean]
  exact ⟨h1, h2, by norm_num, by norm_num,
    detect_anomalies_strict_threshold _ _ h1 h2 (by norm_num) (by norm_num)⟩

/-- Claim C2 (code bug): on the constant series `[5, 5]` the sample standard
deviation is `0` and every value equals the mean `5`, yet `detect_anomalies`
evaluates `anomaly_severity = (5-5)/0`, IEEE NaN — not the `0.0` the
specification prescribes, and no DomainError path exists in the code. -/
theorem detect_anomalies_constant_series_nan :
    sampleVar [(5 : ℚ), 5] = 0
    ∧ mean [(5 : ℚ), 5] = 5
    ∧ (detect_anomalies [⟨"A", 10, 5⟩, ⟨"B", 11, 5⟩] 75).1.map ARecord.anomaly_severity
        = [Sev.nan', Sev.nan'] := by
  refine ⟨by norm_num [sampleVar, mean], by norm_num [mean], ?_⟩
  norm_num [detect_anomalies, anomalySeverity, sampleVar, mean]

/-- Claim C3: `analyze` returns the structured `{"error": "No data
available"}` object exactly on the empty table, and a full result structure
exactly on a non-empty one, for both analyzers. -/
theorem analyze_empty_error_contract (data : List RawRecord) (p : ℚ) :
    (ElectricityAnalyzer.analyze data p = Except.error ⟨"No data available"⟩ ↔ data = [])
    ∧ ((∃ res, ElectricityAnalyzer.analyze data p = Except.ok res) ↔ data ≠ [])
    ∧ (WaterAnalyzer.analyze data p = Except.error ⟨"No data available"⟩ ↔ data = [])
    ∧ ((∃ res, WaterAnalyzer.analyze data p = Except.ok res) ↔ data ≠ []) := by
  unfold ElectricityAnalyzer.analyze WaterAnalyzer.analyze
  by_cases h : data.length = 0
  · have hd : data = [] := List.length_eq_zero.mp h
    subst hd
    simp
  · have hd : data ≠ [] := fun hh => h (by simp [hh])
    simp [if_neg h, hd]

/-- Claim C4: the trend estimator returns `insufficient_data` for fewer than
2 elements; otherwise it splits at index `len/2` (first half smaller for odd
lengths), classifies by `diff_percent` against the ±5 breakpoints, and a
zero first-half mean forces `diff_percent = 0`, hence `stable`. -/
theorem get_trend_direction_spec (series : List ℚ) :
    (series.length < 2 → get_trend_direction series = "insufficient_data")
    ∧ (2 ≤ series.length →
        get_trend_direction series =
          (if 5 < (if mean (series.take (series.length / 2)) ≠ 0 then
                    (mean (series.drop (series.length / 2))
                      - mean (series.take (series.length / 2)))
                      / mean (series.take (series.length / 2)) * 100
                   else 0)
           then "increasing"
           else if (if mean (series.take (series.length / 2)) ≠ 0 then
                      (mean (series.drop (series.length / 2))
                        - mean (series.take (series.length / 2)))
                        / mean (series.take (series.length / 2)) * 100
                    else 0) < -5
           then "decreasing"
           else "stable"))
    ∧ (2 ≤ series.length → mean (series.take (series.length / 2)) = 0 →
        get_trend_direction series = "stable") := by
  refine ⟨?_, ?_, ?_⟩
  · intro h
    simp [get_trend_direction, h]
  · intro h
    simp only [get_trend_direction, if_neg (Nat.not_lt.mpr h)]
  · intro h hm
    simp only [get_trend_direction, if_neg (Nat.not_lt.mpr h), hm]
    norm_num

/-- Instantiation of `get_trend_direction_spec`: a one-element series is
`insufficient_data`, and a zero first-half mean yields `stable`. -/
theorem get_trend_direction_spec_witness :
    get_trend_direction [(7 : ℚ)] = "insufficient_data"
    ∧ get_trend_direction [(0 : ℚ), 0, 5, 5] = "stable" := by
  refine ⟨(get_trend_direction_spec [(7 : ℚ)]).1 (by norm_num), ?_⟩
  refine (get_trend_direction_spec [(0 : ℚ), 0, 5, 5]).2.2 (by norm_num) ?_
  norm_num [mean]

/-- Claim C5, as stated, is false: the stored rollup totals are rounded to
two decimal places, so their sum can differ from the exact sum of the value
column.  A single record of value `1/3` gets the rollup total `33/100`. -/
theorem facility_conservation_counterexample :
    ¬ (((facility_wise_analysis [⟨"A", 0, 1/3, false, Sev.nan', false⟩]).map
          (fun e => e.2.total)).sum
        = (([⟨"A", 0, 1/3, false, Sev.nan', false⟩] : List FRecord).map FRecord.value).sum) := by
  have hfloor : ⌊(100 / 3 : ℚ)⌋ = 33 := by norm_num
  have hrhe : rhe (100 / 3 : ℚ) = 33 := by
    unfold rhe
    rw [hfloor]
    norm_num
  norm_num [facility_wise_analysis, pandasUnique, round2,
    show (100 * (1 / 3 : ℚ)) = 100 / 3 by ring, hrhe]

/-- Claim C5 (amended): the aggregator partitions the records by facility
and conservation holds for the exact per-facility sums — they add up to the
exact total of the value column; each stored rollup total is that exact sum
rounded to two decimals; and a facility appears in the rollup exactly when
it has at least one record. -/
theorem facility_rollup_conservation (data : List FRecord) :
    ((pandasUnique (data.map FRecord.facility)).map (facilitySum data)).sum
        = (data.map FRecord.value).sum
    ∧ (∀ f ru, (f, ru) ∈ facility_wise_analysis data →
        ru.total = round2 (facilitySum data f) ∧ ∃ r ∈ data, r.facility = f)
    ∧ (∀ f, (∃ r ∈ data, r.facility = f) →
        ∃ ru, (f, ru) ∈ facility_wise_analysis data) := by
  refine ⟨?_, ?_, ?_⟩
  · exact sum_facilitySum data _ (pandasUnique_nodup _)
      (fun r hr => (mem_pandasUnique _ _).mpr (List.mem_map_of_mem _ hr))
  · intro f ru hmem
    simp only [facility_wise_analysis, List.mem_map] at hmem
    rcases hmem with ⟨g, hg, heq⟩
    cases heq
    constructor
    · rfl
    · have hmem2 := (mem_pandasUnique _ _).mp hg
      rcases List.mem_map.mp hmem2 with ⟨r, hr, hh⟩
      exact ⟨r, hr, hh⟩
  · rintro f ⟨r, hr, hf⟩
    refine ⟨_, List.mem_map.mpr ⟨f, ?_, rfl⟩⟩
    exact (mem_pandasUnique _ _).mpr (hf ▸ List.mem_map_of_mem _ hr)

/-- Instantiation of `facility_rollup_conservation` on a two-facility table:
the exact sums are conserved, the stored total of facility `"A"` is its
rounded exact sum, and both direction of the appearance criterion hold. -/
theorem facility_rollup_conservation_witness :
    (((pandasUnique (([⟨"A", 0, 2, false, Sev.nan', false⟩,
          ⟨"B", 1, 3, true, Sev.nan', false⟩] : List FRecord).map FRecord.facility)).map
        (facilitySum [⟨"A", 0, 2, false, Sev.nan', false⟩,
          ⟨"B", 1, 3, true, Sev.nan', false⟩])).sum
      = (([⟨"A", 0, 2, false, Sev.nan', false⟩,
          ⟨"B", 1, 3, true, Sev.nan', false⟩] : List FRecord).map FRecord.value).sum)
    ∧ (⟨2, 2, 0⟩ : FacilityRollup).total
        = round2 (facilitySum [⟨"A", 0, 2, false, Sev.nan', false⟩,
            ⟨"B", 1, 3, true, Sev.nan', false⟩] "A")
    ∧ (∃ r ∈ ([⟨"A", 0, 2, false, Sev.nan', false⟩,
          ⟨"B", 1, 3, true, Sev.nan', false⟩] : List FRecord), r.facility = "A")
    ∧ (∃ ru, ("A", ru) ∈ facility_wise_analysis [⟨"A", 0, 2, false, Sev.nan', false⟩,
          ⟨"B", 1, 3, true, Sev.nan', false⟩]) := by
  have hmem : ("A", (⟨2, 2, 0⟩ : FacilityRollup)) ∈
      facility_wise_analysis [⟨"A", 0, 2, false, Sev.nan', false⟩,
        ⟨"B", 1, 3, true, Sev.nan', false⟩] := by
    have hBA : ("B" : String) ≠ "A" := by decide
    have hAB : ("A" : String) ≠ "B" := by decide
    norm_num [facility_wise_analysis, pandasUnique, mean, round2, rhe, hBA, hAB]
  have hc := facility_rollup_conservation
    [⟨"A", 0, 2, false, Sev.nan', false⟩, ⟨"B", 1, 3, true, Sev.nan', false⟩]
  exact ⟨hc.1, (hc.2.1 "A" ⟨2, 2, 0⟩ hmem).1, (hc.2.1 "A" ⟨2, 2, 0⟩ hmem).2,
    hc.2.2 "A" ⟨⟨"A", 0, 2, false, Sev.nan', false⟩, by simp, rfl⟩⟩

/-- Claim C6: the night-idle detector counts night rows whose value strictly
exceeds the threshold, and labels the issue HIGH iff that count exceeds 10,
MEDIUM iff it is in (5, 10], and LOW iff it is at most 5. -/
theorem detect_night_idle_severity (data : List FRecord) (t : ℚ) :
    (detect_night_idle data t).high_night_consumption_count
        = ((data.filter FRecord.is_night_time).filter (fun r => decide (t < r.value))).length
    ∧ ((detect_night_idle data t).issue_severity = "HIGH"
        ↔ 10 < (detect_night_idle data t).high_night_consumption_count)
    ∧ ((detect_night_idle data t).issue_severity = "MEDIUM"
        ↔ 5 < (detect_night_idle data t).high_night_consumption_count
            ∧ (detect_night_idle data t).high_night_consumption_count ≤ 10)
    ∧ ((detect_night_idle data t).issue_severity = "LOW"
        ↔ (detect_night_idle data t).high_night_consumption_count ≤ 5) := by
  refine ⟨rfl, ?_, ?_, ?_⟩ <;>
  · simp only [detect_night_idle]
    split_ifs with h1 h2 <;> simp_all <;> omega

/-- Claim C7: a facility is reported at risk of leaking exactly when it has
strictly more than 5 anomalous records, and `leak_probability` is HIGH
exactly when the at-risk list is non-empty (LOW otherwise). -/
theorem detect_potential_leaks_spec (data : List FRecord) (f : String) :
    (f ∈ (detect_potential_leaks data).facilities_at_risk
      ↔ 5 < ((data.filter FRecord.is_anomaly).filter
              (fun r => decide (r.facility = f))).length)
    ∧ ((detect_potential_leaks data).leak_probability = "HIGH"
        ↔ (detect_potential_leaks data).facilities_at_risk ≠ [])
    ∧ ((detect_potential_leaks data).leak_probability = "LOW"
        ↔ (detect_potential_leaks data).facilities_at_risk = []) := by
  refine ⟨?_, ?_, ?_⟩
  · simp only [detect_potential_leaks, List.mem_filter, decide_eq_true_eq,
      mem_pandasUnique]
    constructor
    · exact fun h => h.2
    · intro h
      refine ⟨?_, h⟩
      have hpos : 0 < ((data.filter FRecord.is_anomaly).filter
          (fun r => decide (r.facility = f))).length := by omega
      rcases List.exists_mem_of_length_pos hpos with ⟨r, hr⟩
      have hf := (List.mem_filter.mp hr).2
      simp only [decide_eq_true_eq] at hf
      exact hf ▸ List.mem_map_of_mem _ (List.mem_filter.mp hr).1
  · simp only [detect_potential_leaks]
    split_ifs with h
    · exact ⟨fun _ => List.length_pos.mp h, fun _ => rfl⟩
    · exact ⟨fun hh => absurd hh (by decide),
        fun hh => absurd (List.length_pos.mpr hh) h⟩
  · simp only [detect_potential_leaks]
    split_ifs with h
    · refine ⟨fun hh => absurd hh (by decide), fun hh => ?_⟩
      rw [hh] at h
      exact absurd h (by simp)
    · exact ⟨fun _ => List.length_eq_zero.mp (Nat.eq_zero_of_not_pos h), fun _ => rfl⟩

/-- Claim C8: `identify_night_time_usage` sets `is_night_time` exactly when
the record's hour lies in `NIGHT_TIME_HOURS = {22,23,0,1,2,3,4,5}`; the flag
depends only on the hour, so records with equal hours get equal flags
regardless of facility or value. -/
theorem identify_night_time_spec (data : List ARecord) :
    (∀ r ∈ identify_night_time_usage data,
        (r.is_night_time = true ↔ r.hour ∈ NIGHT_TIME_HOURS))
    ∧ (∀ r1 ∈ identify_night_time_usage data, ∀ r2 ∈ identify_night_time_usage data,
        r1.hour = r2.hour → r1.is_night_time = r2.is_night_time) := by
  constructor
  · intro r hr
    rcases List.mem_map.mp hr with ⟨s, _, rfl⟩
    simp
  · intro r1 h1 r2 h2 hh
    rcases List.mem_map.mp h1 with ⟨s1, _, rfl⟩
    rcases List.mem_map.mp h2 with ⟨s2, _, rfl⟩
    simp only at hh ⊢
    rw [hh]

/-- Instantiation of `identify_night_time_spec`: hour 23 is classified as
night, hour 12 is not, and two records sharing hour 3 agree. -/
theorem identify_night_time_spec_witness :
    (∀ r ∈ identify_night_time_usage [⟨"A", 23, 1, false, Sev.nan'⟩,
        ⟨"B", 12, 2, false, Sev.nan'⟩],
      (r.is_night_time = true ↔ r.hour ∈ NIGHT_TIME_HOURS))
    ∧ (∀ r1 ∈ identify_night_time_usage [⟨"A", 3, 1, false, Sev.nan'⟩,
          ⟨"B", 3, 9, true, Sev.nan'⟩],
        ∀ r2 ∈ identify_night_time_usage [⟨"A", 3, 1, false, Sev.nan'⟩,
          ⟨"B", 3, 9, true, Sev.nan'⟩],
        r1.hour = r2.hour → r1.is_night_time = r2.is_night_time) :=
  ⟨(identify_night_time_spec _).1, (identify_night_time_spec _).2⟩

/-- Claim C9: `get_anomalies_dataframe` (both analyzers) returns exactly the
records flagged `is_anomaly`, as a permutation of the filtered table, sorted
by consumption value in descending order. -/
theorem get_anomalies_dataframe_spec (data : List FRecord) :
    ((ElectricityAnalyzer.get_anomalies_dataframe data).Perm
        (data.filter FRecord.is_anomaly)
      ∧ (ElectricityAnalyzer.get_anomalies_dataframe data).Sorted
          (fun a b => b.value ≤ a.value)
      ∧ ∀ r, r ∈ ElectricityAnalyzer.get_anomalies_dataframe data
          ↔ r ∈ data ∧ r.is_anomaly = true)
    ∧ ((WaterAnalyzer.get_anomalies_dataframe data).Perm
        (data.filter FRecord.is_anomaly)
      ∧ (WaterAnalyzer.get_anomalies_dataframe data).Sorted
          (fun a b => b.value ≤ a.value)
      ∧ ∀ r, r ∈ WaterAnalyzer.get_anomalies_dataframe data
          ↔ r ∈ data ∧ r.is_anomaly = true) := by
  have hperm := List.perm_insertionSort byValueDesc (data.filter FRecord.is_anomaly)
  have hsort := List.sorted_insertionSort byValueDesc (data.filter FRecord.is_anomaly)
  have hmem : ∀ r, r ∈ List.insertionSort byValueDesc (data.filter FRecord.is_anomaly)
      ↔ r ∈ data ∧ r.is_anomaly = true := by
    intro r
    rw [hperm.mem_iff, List.mem_filter]
  exact ⟨⟨hperm, hsort, hmem⟩, ⟨hperm, hsort, hmem⟩⟩

theorem reported_invariants (fdata : List FRecord) (n : ℕ)
    (hn : 0 < n) (hlen : fdata.length = n)
    (hnn : ∀ r ∈ fdata, 0 ≤ r.value) :
    round2 (((fdata.filter FRecord.is_night_time).map FRecord.value).sum)
        ≤ round2 ((fdata.map FRecord.value).sum)
    ∧ (fdata.filter FRecord.is_anomaly).length ≤ n
    ∧ 0 ≤ round2 (((fdata.filter FRecord.is_anomaly).length : ℚ) / (n : ℚ) * 100)
    ∧ round2 (((fdata.filter FRecord.is_anomaly).length : ℚ) / (n : ℚ) * 100) ≤ 100 := by
  have hcount : (fdata.filter FRecord.is_anomaly).length ≤ n :=
    hlen ▸ List.length_filter_le _ _
  have hq0 : (0 : ℚ) ≤ ((fdata.filter FRecord.is_anomaly).length : ℚ) / (n : ℚ) * 100 := by
    positivity
  have hq100 : ((fdata.filter FRecord.is_anomaly).length : ℚ) / (n : ℚ) * 100 ≤ 100 := by
    have hnq : (0 : ℚ) < (n : ℚ) := by exact_mod_cast hn
    have hle : ((fdata.filter FRecord.is_anomaly).length : ℚ) ≤ (n : ℚ) := by
      exact_mod_cast hcount
    have hdiv : ((fdata.filter FRecord.is_anomaly).length : ℚ) / (n : ℚ) ≤ 1 :=
      (div_le_one hnq).mpr hle
    linarith
  refine ⟨round2_mono (sum_map_value_filter_le _ _ hnn), hcount, ?_, ?_⟩
  · calc (0 : ℚ) = round2 0 := round2_zero.symm
      _ ≤ _ := round2_mono hq0
  · calc round2 _ ≤ round2 100 := round2_mono hq100
      _ = 100 := round2_hundred

/-- Claim C10: on every non-empty table of non-negative values, both
analyzers report a night-time consumption total no larger than the total
consumption, an anomaly count no larger than the number of records, and an
anomaly percentage within [0, 100]. -/
theorem analyze_result_invariants (data : List RawRecord) (p : ℚ)
    (hne : data ≠ []) (hval : ∀ r ∈ data, 0 ≤ r.value) :
    (∀ res, ElectricityAnalyzer.analyze data p = Except.ok res →
        res.night_consumption_kwh ≤ res.total_consumption_kwh
        ∧ res.anomalies_detected ≤ data.length
        ∧ 0 ≤ res.anomaly_percentage ∧ res.anomaly_percentage ≤ 100)
    ∧ (∀ res, WaterAnalyzer.analyze data p = Except.ok res →
        res.night_consumption_gallons ≤ res.total_consumption_gallons
        ∧ res.anomalies_detected ≤ data.length
        ∧ 0 ≤ res.anomaly_percentage ∧ res.anomaly_percentage ≤ 100) := by
  have hlen0 : data.length ≠ 0 := fun h => hne (List.length_eq_zero.mp h)
  have hpos : 0 < data.length := Nat.pos_of_ne_zero hlen0
  have hinv := reported_invariants
    (identify_night_time_usage (detect_anomalies data p).1) data.length hpos
    (pipeline_length data p) (pipeline_value_nonneg data p hval)
  constructor
  · intro res hres
    unfold ElectricityAnalyzer.analyze at hres
    rw [if_neg hlen0] at hres
    cases Except.ok.inj hres
    exact ⟨hinv.1, hinv.2.1, hinv.2.2.1, hinv.2.2.2⟩
  · intro res hres
    unfold WaterAnalyzer.analyze at hres
    rw [if_neg hlen0] at hres
    cases Except.ok.inj hres
    exact ⟨hinv.1, hinv.2.1, hinv.2.2.1, hinv.2.2.2⟩

/-- Instantiation of `analyze_result_invariants` on a one-record table. -/
theorem analyze_result_invariants_witness :
    (([⟨"A", 23, 10⟩] : List RawRecord) ≠ [])
    ∧ (∀ r ∈ ([⟨"A", 23, 10⟩] : List RawRecord), 0 ≤ r.value)
    ∧ ((∀ res, ElectricityAnalyzer.analyze [⟨"A", 23, 10⟩] 75 = Except.ok res →
          res.night_consumption_kwh ≤ res.total_consumption_kwh
          ∧ res.anomalies_detected ≤ ([⟨"A", 23, 10⟩] : List RawRecord).length
          ∧ 0 ≤ res.anomaly_percentage ∧ res.anomaly_percentage ≤ 100)
      ∧ (∀ res, WaterAnalyzer.analyze [⟨"A", 23, 10⟩] 75 = Except.ok res →
          res.night_consumption_gallons ≤ res.total_consumption_gallons
          ∧ res.anomalies_detected ≤ ([⟨"A", 23, 10⟩] : List RawRecord).length
          ∧ 0 ≤ res.anomaly_percentage ∧ res.anomaly_percentage ≤ 100)) := by
  have h1 : (([⟨"A", 23, 10⟩] : List RawRecord) ≠ []) := by simp
  have h2 : ∀ r ∈ ([⟨"A", 23, 10⟩] : List RawRecord), 0 ≤ r.value := by
    intro r hr
    rcases List.mem_singleton.mp hr with rfl
    norm_num
  exact ⟨h1, h2, analyze_result_invariants _ 75 h1 h2⟩

/-- Instantiation of `analyze_empty_error_contract`: the empty table gives
the error object, a one-record table gives a result, for both analyzers. -/
theorem analyze_empty_error_contract_witness :
    ElectricityAnalyzer.analyze ([] : List RawRecord) 75 = Except.error ⟨"No data available"⟩
    ∧ (∃ res, ElectricityAnalyzer.analyze [⟨"A", 0, 1⟩] 75 = Except.ok res)
    ∧ WaterAnalyzer.analyze ([] : List RawRecord) 75 = Except.error ⟨"No data available"⟩
    ∧ (∃ res, WaterAnalyzer.analyze [⟨"A", 0, 1⟩] 75 = Except.ok res) :=
  ⟨(analyze_empty_error_contract [] 75).1.mpr rfl,
   (analyze_empty_error_contract [⟨"A", 0, 1⟩] 75).2.1.mpr (by simp),
   (analyze_empty_error_contract [] 75).2.2.1.mpr rfl,
   (analyze_empty_error_contract [⟨"A", 0, 1⟩] 75).2.2.2.mpr (by simp)⟩

/-- Instantiation of `detect_night_idle_severity`: exactly 11 high-night
events give HIGH, exactly 6 give MEDIUM, exactly 5 give LOW. -/
theorem detect_night_idle_severity_witness :
    (detect_night_idle [⟨"A", 23, 1, false, Sev.nan', true⟩, ⟨"A", 23, 1, false, Sev.nan', true⟩, ⟨"A", 23, 1, false, Sev.nan', true⟩, ⟨"A", 23, 1, false, Sev.nan', true⟩, ⟨"A", 23, 1, false, Sev.nan', true⟩, ⟨"A", 23, 1, false, Sev.nan', true⟩, ⟨"A", 23, 1, false, Sev.nan', true⟩, ⟨"A", 23, 1, false, Sev.nan', true⟩, ⟨"A", 23, 1, false, Sev.nan', true⟩, ⟨"A", 23, 1, false, Sev.nan', true⟩, ⟨"A", 23, 1, false, Sev.nan', true⟩] 0).issue_severity = "HIGH"
    ∧ (detect_night_idle [⟨"A", 23, 1, false, Sev.nan', true⟩, ⟨"A", 23, 1, false, Sev.nan', true⟩, ⟨"A", 23, 1, false, Sev.nan', true⟩, ⟨"A", 23, 1, false, Sev.nan', true⟩, ⟨"A", 23, 1, false, Sev.nan', true⟩, ⟨"A", 23, 1, false, Sev.nan', true⟩] 0).issue_severity = "MEDIUM"
    ∧ (detect_night_idle [⟨"A", 23, 1, false, Sev.nan', true⟩, ⟨"A", 23, 1, false, Sev.nan', true⟩, ⟨"A", 23, 1, false, Sev.nan', true⟩, ⟨"A", 23, 1, false, Sev.nan', true⟩, ⟨"A", 23, 1, false, Sev.nan', true⟩] 0).issue_severity = "LOW" := by
  have h11 : (detect_night_idle [⟨"A", 23, 1, false, Sev.nan', true⟩, ⟨"A", 23, 1, false, Sev.nan', true⟩, ⟨"A", 23, 1, false, Sev.nan', true⟩, ⟨"A", 23, 1, false, Sev.nan', true⟩, ⟨"A", 23, 1, false, Sev.nan', true⟩, ⟨"A", 23, 1, false, Sev.nan', true⟩, ⟨"A", 23, 1, false, Sev.nan', true⟩, ⟨"A", 23, 1, false, Sev.nan', true⟩, ⟨"A", 23, 1, false, Sev.nan', true⟩, ⟨"A", 23, 1, false, Sev.nan', true⟩, ⟨"A", 23, 1, false, Sev.nan', true⟩] 0).high_night_consumption_count = 11 := by
    norm_num [detect_night_idle]
  have h6 : (detect_night_idle [⟨"A", 23, 1, false, Sev.nan', true⟩, ⟨"A", 23, 1, false, Sev.nan', true⟩, ⟨"A", 23, 1, false, Sev.nan', true⟩, ⟨"A", 23, 1, false, Sev.nan', true⟩, ⟨"A", 23, 1, false, Sev.nan', true⟩, ⟨"A", 23, 1, false, Sev.nan', true⟩] 0).high_night_consumption_count = 6 := by
    norm_num [detect_night_idle]
  have h5 : (detect_night_idle [⟨"A", 23, 1, false, Sev.nan', true⟩, ⟨"A", 23, 1, false, Sev.nan', true⟩, ⟨"A", 23, 1, false, Sev.nan', true⟩, ⟨"A", 23, 1, false, Sev.nan', true⟩, ⟨"A", 23, 1, false, Sev.nan', true⟩] 0).high_night_consumption_count = 5 := by
    norm_num [detect_night_idle]
  refine ⟨(detect_night_idle_severity _ 0).2.1.mpr (by rw [h11]; omega),
    (detect_night_idle_severity _ 0).2.2.1.mpr (by rw [h6]; omega),
    (detect_night_idle_severity _ 0).2.2.2.mpr (by rw [h5])⟩

/-- Instantiation of `detect_potential_leaks_spec`: a facility with exactly
6 anomalous records is at risk and the probability is HIGH; with exactly 5
it is not at risk and, alone, the probability is LOW. -/
theorem detect_potential_leaks_spec_witness :
    "W" ∈ (detect_potential_leaks [⟨"W", 0, 1, true, Sev.nan', false⟩, ⟨"W", 0, 1, true, Sev.nan', false⟩, ⟨"W", 0, 1, true, Sev.nan', false⟩, ⟨"W", 0, 1, true, Sev.nan', false⟩, ⟨"W", 0, 1, true, Sev.nan', false⟩, ⟨"W", 0, 1, true, Sev.nan', false⟩]).facilities_at_risk
    ∧ (detect_potential_leaks [⟨"W", 0, 1, true, Sev.nan', false⟩, ⟨"W", 0, 1, true, Sev.nan', false⟩, ⟨"W", 0, 1, true, Sev.nan', false⟩, ⟨"W", 0, 1, true, Sev.nan', false⟩, ⟨"W", 0, 1, true, Sev.nan', false⟩, ⟨"W", 0, 1, true, Sev.nan', false⟩]).leak_probability = "HIGH"
    ∧ "W" ∉ (detect_potential_leaks [⟨"W", 0, 1, true, Sev.nan', false⟩, ⟨"W", 0, 1, true, Sev.nan', false⟩, ⟨"W", 0, 1, true, Sev.nan', false⟩, ⟨"W", 0, 1, true, Sev.nan', false⟩, ⟨"W", 0, 1, true, Sev.nan', false⟩]).facilities_at_risk
    ∧ (detect_potential_leaks [⟨"W", 0, 1, true, Sev.nan', false⟩, ⟨"W", 0, 1, true, Sev.nan', false⟩, ⟨"W", 0, 1, true, Sev.nan', false⟩, ⟨"W", 0, 1, true, Sev.nan', false⟩, ⟨"W", 0, 1, true, Sev.nan', false⟩]).leak_probability = "LOW" := by
  have hc6 : (([⟨"W", 0, 1, true, Sev.nan', false⟩, ⟨"W", 0, 1, true, Sev.nan', false⟩, ⟨"W", 0, 1, true, Sev.nan', false⟩, ⟨"W", 0, 1, true, Sev.nan', false⟩, ⟨"W", 0, 1, true, Sev.nan', false⟩, ⟨"W", 0, 1, true, Sev.nan', false⟩] : List FRecord).filter FRecord.is_anomaly
      |>.filter (fun r => decide (r.facility = "W"))).length = 6 := by
    norm_num
  have hc5 : (([⟨"W", 0, 1, true, Sev.nan', false⟩, ⟨"W", 0, 1, true, Sev.nan', false⟩, ⟨"W", 0, 1, true, Sev.nan', false⟩, ⟨"W", 0, 1, true, Sev.nan', false⟩, ⟨"W", 0, 1, true, Sev.nan', false⟩] : List FRecord).filter FRecord.is_anomaly
      |>.filter (fun r => decide (r.facility = "W"))).length = 5 := by
    norm_num
  have hmem : "W" ∈ (detect_potential_leaks [⟨"W", 0, 1, true, Sev.nan', false⟩, ⟨"W", 0, 1, true, Sev.nan', false⟩, ⟨"W", 0, 1, true, Sev.nan', false⟩, ⟨"W", 0, 1, true, Sev.nan', false⟩, ⟨"W", 0, 1, true, Sev.nan', false⟩, ⟨"W", 0, 1, true, Sev.nan', false⟩]).facilities_at_risk :=
    (detect_potential_leaks_spec [⟨"W", 0, 1, true, Sev.nan', false⟩, ⟨"W", 0, 1, true, Sev.nan', false⟩, ⟨"W", 0, 1, true, Sev.nan', false⟩, ⟨"W", 0, 1, true, Sev.nan', false⟩, ⟨"W", 0, 1, true, Sev.nan', false⟩, ⟨"W", 0, 1, true, Sev.nan', false⟩] "W").1.mpr (by rw [hc6]; omega)
  have hempty : (detect_potential_leaks [⟨"W", 0, 1, true, Sev.nan', false⟩, ⟨"W", 0, 1, true, Sev.nan', false⟩, ⟨"W", 0, 1, true, Sev.nan', false⟩, ⟨"W", 0, 1, true, Sev.nan', false⟩, ⟨"W", 0, 1, true, Sev.nan', false⟩]).facilities_at_risk = [] := by
    norm_num [detect_potential_leaks, pandasUnique]
  refine ⟨hmem, (detect_potential_leaks_spec [⟨"W", 0, 1, true, Sev.nan', false⟩, ⟨"W", 0, 1, true, Sev.nan', false⟩, ⟨"W", 0, 1, true, Sev.nan', false⟩, ⟨"W", 0, 1, true, Sev.nan', false⟩, ⟨"W", 0, 1, true, Sev.nan', false⟩, ⟨"W", 0, 1, true, Sev.nan', false⟩] "W").2.1.mpr (List.ne_nil_of_mem hmem),
    ?_, (detect_potential_leaks_spec [⟨"W", 0, 1, true, Sev.nan', false⟩, ⟨"W", 0, 1, true, Sev.nan', false⟩, ⟨"W", 0, 1, true, Sev.nan', false⟩, ⟨"W", 0, 1, true, Sev.nan', false⟩, ⟨"W", 0, 1, true, Sev.nan', false⟩] "W").2.2.mpr hempty⟩
  intro h
  have hlt := (detect_potential_leaks_spec [⟨"W", 0, 1, true, Sev.nan', false⟩, ⟨"W", 0, 1, true, Sev.nan', false⟩, ⟨"W", 0, 1, true, Sev.nan', false⟩, ⟨"W", 0, 1, true, Sev.nan', false⟩, ⟨"W", 0, 1, true, Sev.nan', false⟩] "W").1.mp h
  rw [hc5] at hlt
  omega
